import Mathlib

/-!
Shallow embedding of the payment-event reconciliation pipeline of
`src/index.js` (webhook receiver, event ledger, identity resolver,
entitlement transitions, entitlement projection and the per-user read
endpoint).  Firestore documents are modelled as association lists keyed
by document id; `set(..., merge: true)` is modelled as an update of the
named fields of the existing record (or of a fresh default record when
the document is absent).  JavaScript truthiness of optional strings and
numbers is modelled explicitly ("" and 0 are falsy).  Timestamps are
natural numbers; `FieldValue.serverTimestamp()` is the `now` parameter
threaded through the handlers.  External calls (Stripe signature
verification, `stripe.subscriptions.retrieve`) are function parameters;
a `retrieve` that throws is modelled by the function returning `none`,
matching the `try/catch` in the source.  The rich-menu side effect is
recorded as an emitted action naming the user and the menu variant.
-/

namespace Oshaberi

/-- JS truthiness of an optional string: absent and "" are falsy. -/
def strTruthy : Option String → Bool
  | some s => s != ""
  | none => false

/-- JS truthiness of an optional number: absent and 0 are falsy. -/
def natTruthy : Option Nat → Bool
  | some n => n != 0
  | none => false

/-- JS `a || b` on optional numbers (0 and absent are falsy). -/
def jsOrNat (a b : Option Nat) : Option Nat :=
  if natTruthy a then a else b

/-- `tsFromSec` from src/index.js line 41: `sec ? Timestamp(sec) : null`. -/
def tsFromSec (sec : Option Nat) : Option Nat :=
  if natTruthy sec then sec else none

/-- A user entitlement document in the `users` collection. -/
structure UserRecord where
  premium : Bool := false
  premiumSince : Option Nat := none
  premiumUntil : Option Nat := none
  stripeCustomerId : Option String := none
  lastSubscriptionId : Option String := none
  cancelPending : Option Bool := none
  cancelAt : Option Nat := none
deriving Repr, DecidableEq

/-- A Stripe `customer` field: a string id, an inlined object whose `id`
may be absent, or absent altogether. -/
inductive CustomerField
  | str (s : String)
  | obj (ident : Option String)
  | absent
deriving Repr, DecidableEq

/-- `typeof c === "string" ? c : c?.id`, the extraction used at
src/index.js lines 56-57 and 79-80. -/
def customerIdOf : CustomerField → Option String
  | .str s => some s
  | .obj i => i
  | .absent => none

/-- A Stripe subscription object (the fields the pipeline reads). -/
structure SubObj where
  ident : Option String := none
  metadataUserId : Option String := none
  customer : CustomerField := .absent
  cancel_at_period_end : Bool := false
  cancel_at : Option Nat := none
  current_period_end : Option Nat := none
deriving Repr, DecidableEq

/-- A `subscription` field on an invoice or checkout session: a string
reference, an inlined object, or absent. -/
inductive SubField
  | ref (ident : String)
  | inl (sub : SubObj)
  | absent
deriving Repr, DecidableEq

/-- JS truthiness of a `subscription` field ("" is a falsy string;
objects are always truthy). -/
def subFieldTruthy : SubField → Bool
  | .ref i => i != ""
  | .inl _ => true
  | .absent => false

/-- An invoice line item (the fields the pipeline reads). -/
structure LineItem where
  type : String := ""
  period_end : Option Nat := none
deriving Repr, DecidableEq

/-- A Stripe invoice (the fields the pipeline reads). -/
structure Invoice where
  metadataUserId : Option String := none
  lines : List LineItem := []
  subscription : SubField := .absent
  customer : CustomerField := .absent
  period_end : Option Nat := none
deriving Repr, DecidableEq

/-- A checkout session (the fields the pipeline reads). -/
structure Session where
  metadataUserId : Option String := none
  customer : CustomerField := .absent
  subscription : SubField := .absent
  mode : String := ""
deriving Repr, DecidableEq

/-- Association-list read keyed by document id (first entry wins). -/
def alGet {α : Type} : List (String × α) → String → Option α
  | [], _ => none
  | p :: rest, k => if p.1 = k then some p.2 else alGet rest k

/-- Association-list write: replace the first entry with the given key,
or append when the key is absent. -/
def alSet {α : Type} : List (String × α) → String → α → List (String × α)
  | [], k, v => [(k, v)]
  | p :: rest, k, v => if p.1 = k then (k, v) :: rest else p :: alSet rest k v

/-- `db.collection("users").doc(k).set(patch, merge: true)`: apply the
patch to the stored record, creating it from defaults when absent. -/
def setUserMerge (users : List (String × UserRecord)) (k : String)
    (f : UserRecord → UserRecord) : List (String × UserRecord) :=
  alSet users k (f ((alGet users k).getD {}))

/-- `resolveUserIdFromCustomerId` (src/index.js lines 44-52): reverse
lookup of the `users` collection by `stripeCustomerId`, `limit(1)` — the
first matching document's id is returned. -/
def resolveUserIdFromCustomerId (users : List (String × UserRecord))
    (customerId : Option String) : Option String :=
  if strTruthy customerId then
    match users.find? (fun p => p.2.stripeCustomerId == customerId) with
    | some p => some p.1
    | none => none
  else none

/-- `resolveUserIdFromSub` (src/index.js lines 53-59). -/
def resolveUserIdFromSub (users : List (String × UserRecord))
    (sub : Option SubObj) : Option String :=
  match sub with
  | none => none
  | some s =>
    if strTruthy s.metadataUserId then s.metadataUserId
    else resolveUserIdFromCustomerId users (customerIdOf s.customer)

/-- The subscription object available after the `typeof sub === "string"`
fetch step of `resolveUserIdFromInvoice` (src/index.js lines 69-76); a
fetch that throws yields `none`. -/
def fetchedSub (fetchSub : String → Option SubObj) : SubField → Option SubObj
  | .ref i => fetchSub i
  | .inl s => some s
  | .absent => none

/-- `resolveUserIdFromInvoice` (src/index.js lines 60-82): invoice
metadata tag, then the referenced subscription's metadata tag (fetching
the subscription when only a string reference is present), then reverse
lookup by the invoice's customer reference.  The `subLine` computed at
lines 65-67 of the source is never used by the resolver and is omitted. -/
def resolveUserIdFromInvoice (users : List (String × UserRecord))
    (fetchSub : String → Option SubObj) (inv : Option Invoice) : Option String :=
  match inv with
  | none => none
  | some inv =>
    if strTruthy inv.metadataUserId then inv.metadataUserId
    else
      match fetchedSub fetchSub inv.subscription with
      | some s =>
        if strTruthy s.metadataUserId then s.metadataUserId
        else resolveUserIdFromCustomerId users (customerIdOf inv.customer)
      | none => resolveUserIdFromCustomerId users (customerIdOf inv.customer)

/-- `isPremiumFromData` (src/index.js lines 94-101). -/
def isPremiumFromData (data : Option UserRecord) (now : Nat) : Bool :=
  match data with
  | none => false
  | some d =>
    if !d.premium then false
    else
      match d.premiumUntil with
      | none => true
      | some u => decide (now < u)

/-- The two rich-menu variants the pipeline links. -/
inductive MenuVariant
  | premiumMenu
  | regularMenu
deriving Repr, DecidableEq

/-- A recorded `linkRichMenuIdToUser` side effect. -/
structure SideEffect where
  userId : String
  menu : MenuVariant
deriving Repr, DecidableEq

/-- The event payloads dispatched by `handleStripeEvent`. -/
inductive EventData
  | subscriptionUpdated (sub : SubObj)
  | checkoutCompleted (session : Session)
  | invoicePaymentSucceeded (inv : Invoice)
  | subscriptionDeleted (sub : SubObj)
  | other (t : String)
deriving Repr, DecidableEq

/-- A verified Stripe event: the ledger key `id` plus the payload. -/
structure Event where
  id : String
  data : EventData
deriving Repr, DecidableEq

/-- `event.type` as stored into the ledger record. -/
def eventTypeName : EventData → String
  | .subscriptionUpdated _ => "customer.subscription.updated"
  | .checkoutCompleted _ => "checkout.session.completed"
  | .invoicePaymentSucceeded _ => "invoice.payment_succeeded"
  | .subscriptionDeleted _ => "customer.subscription.deleted"
  | .other t => t

/-- `typeof session.customer === "string" ? session.customer :
session.customer?.id || null` (src/index.js lines 230-233). -/
def checkoutCustomerId (session : Session) : Option String :=
  match session.customer with
  | .str s => some s
  | .obj i => if strTruthy i then i else none
  | .absent => none

/-- `typeof session.subscription === "string" ? session.subscription :
session.subscription?.id || null` (src/index.js lines 234-237). -/
def checkoutSubscriptionId (session : Session) : Option String :=
  match session.subscription with
  | .ref i => some i
  | .inl s => if strTruthy s.ident then s.ident else none
  | .absent => none

/-- `premiumUntilTs` of the checkout handler (src/index.js lines
239-251): resolved from the linked subscription's current period end
when the session is a subscription checkout; a failed retrieve leaves it
null. -/
def checkoutPremiumUntil (fetchSub : String → Option SubObj)
    (session : Session) : Option Nat :=
  if session.mode == "subscription" && subFieldTruthy session.subscription then
    match session.subscription with
    | .ref i =>
      match fetchSub i with
      | some s => if natTruthy s.current_period_end then tsFromSec s.current_period_end else none
      | none => none
    | .inl s => if natTruthy s.current_period_end then tsFromSec s.current_period_end else none
    | .absent => none
  else none

/-- The merge patch written by `customer.subscription.updated`
(src/index.js lines 204-216). -/
def subscriptionUpdatedPatch (sub : SubObj) (r : UserRecord) : UserRecord :=
  let willCancel := sub.cancel_at_period_end || natTruthy sub.cancel_at
  let cancelAtSec := jsOrNat sub.cancel_at (jsOrNat sub.current_period_end none)
  { r with
    cancelPending := if willCancel then some true else none
    cancelAt := tsFromSec cancelAtSec
    premiumUntil :=
      if natTruthy sub.current_period_end then tsFromSec sub.current_period_end
      else r.premiumUntil }

/-- The merge patch written by `checkout.session.completed`
(src/index.js lines 253-264). -/
def checkoutCompletedPatch (fetchSub : String → Option SubObj) (now : Nat)
    (session : Session) (r : UserRecord) : UserRecord :=
  let customerId := checkoutCustomerId session
  let subscriptionId := checkoutSubscriptionId session
  let premiumUntilTs := checkoutPremiumUntil fetchSub session
  { r with
    premium := true
    premiumSince := some now
    premiumUntil := if premiumUntilTs.isSome then premiumUntilTs else r.premiumUntil
    stripeCustomerId := if strTruthy customerId then customerId else r.stripeCustomerId
    lastSubscriptionId := if strTruthy subscriptionId then subscriptionId else r.lastSubscriptionId
    cancelPending := none
    cancelAt := none }

/-- The merge patch written by `invoice.payment_succeeded`
(src/index.js lines 286-289). -/
def invoicePaymentSucceededPatch (periodEndSec : Option Nat) (r : UserRecord) : UserRecord :=
  { r with premium := true, premiumUntil := tsFromSec periodEndSec }

/-- The merge patch written by `customer.subscription.deleted`
(src/index.js lines 303-311). -/
def subscriptionDeletedPatch (r : UserRecord) : UserRecord :=
  { r with premium := false, premiumUntil := none, cancelPending := none, cancelAt := none }

/-- `subLine` of the invoice handler (src/index.js lines 279-281): the
first line item of type "subscription", else the first line item. -/
def invoiceSubLine (inv : Invoice) : Option LineItem :=
  match inv.lines.find? (fun l => l.type == "subscription") with
  | some l => some l
  | none => inv.lines.head?

/-- `periodEndSec` of the invoice handler (src/index.js lines 282-283):
`subLine?.period?.end || inv?.period_end || null`. -/
def invoicePeriodEnd (inv : Invoice) : Option Nat :=
  jsOrNat ((invoiceSubLine inv).bind (fun l => l.period_end)) (jsOrNat inv.period_end none)

/-- The transition function the dispatcher applies for each event type,
as a record patch (see §4.5 of the design: `(payload) ->
EntitlementRecordPatch`). -/
def eventPatch (fetchSub : String → Option SubObj) (now : Nat) :
    EventData → UserRecord → UserRecord
  | .subscriptionUpdated sub => subscriptionUpdatedPatch sub
  | .checkoutCompleted session => checkoutCompletedPatch fetchSub now session
  | .invoicePaymentSucceeded inv => invoicePaymentSucceededPatch (invoicePeriodEnd inv)
  | .subscriptionDeleted _ => subscriptionDeletedPatch
  | .other _ => id

/-- `handleStripeEvent` (src/index.js lines 199-325): route the event by
type, resolve the user, apply the merge patch and emit the rich-menu
side effect.  Returns the updated `users` collection and the emitted
side effects. -/
def handleStripeEvent (fetchSub : String → Option SubObj) (now : Nat)
    (ev : EventData) (users : List (String × UserRecord)) :
    List (String × UserRecord) × List SideEffect :=
  match ev with
  | .subscriptionUpdated sub =>
    let userId := resolveUserIdFromSub users (some sub)
    let willCancel := sub.cancel_at_period_end || natTruthy sub.cancel_at
    if strTruthy userId then
      let u := userId.getD ""
      (setUserMerge users u (subscriptionUpdatedPatch sub),
       [⟨u, if willCancel then .regularMenu else .premiumMenu⟩])
    else (users, [])
  | .checkoutCompleted session =>
    if strTruthy session.metadataUserId then
      let u := session.metadataUserId.getD ""
      (setUserMerge users u (checkoutCompletedPatch fetchSub now session),
       [⟨u, .premiumMenu⟩])
    else (users, [])
  | .invoicePaymentSucceeded inv =>
    let userId := resolveUserIdFromInvoice users fetchSub (some inv)
    let periodEndSec := invoicePeriodEnd inv
    if strTruthy userId && natTruthy periodEndSec then
      let u := userId.getD ""
      (setUserMerge users u (invoicePaymentSucceededPatch periodEndSec),
       [⟨u, .premiumMenu⟩])
    else (users, [])
  | .subscriptionDeleted sub =>
    let userId := resolveUserIdFromSub users (some sub)
    if strTruthy userId then
      let u := userId.getD ""
      (setUserMerge users u subscriptionDeletedPatch, [⟨u, .regularMenu⟩])
    else (users, [])
  | .other _ => (users, [])

/-- A document in the `stripe_events` ledger collection. -/
structure LedgerRec where
  lockedAt : Option Nat := none
  processedAt : Option Nat := none
  type : Option String := none
deriving Repr, DecidableEq

/-- Merge-write into the ledger collection. -/
def setLedgerMerge (ledger : List (String × LedgerRec)) (k : String)
    (f : LedgerRec → LedgerRec) : List (String × LedgerRec) :=
  alSet ledger k (f ((alGet ledger k).getD {}))

/-- The whole external document store: the `users` collection and the
`stripe_events` ledger. -/
structure Store where
  users : List (String × UserRecord) := []
  ledger : List (String × LedgerRec) := []
deriving Repr, DecidableEq

/-- The duplicate check of the webhook handler (src/index.js line 355):
`seen.exists && (seen.data()?.processedAt || seen.data()?.lockedAt)`. -/
def ledgerSeenLocked (ledger : List (String × LedgerRec)) (eid : String) : Bool :=
  match alGet ledger eid with
  | some seen => seen.processedAt.isSome || seen.lockedAt.isSome
  | none => false

/-- The post-verification body of the webhook handler (src/index.js
lines 353-368): duplicate check, lock write, dispatch, processed
write. -/
def processVerified (fetchSub : String → Option SubObj) (now : Nat)
    (ev : Event) (st : Store) : Store × List SideEffect :=
  if ledgerSeenLocked st.ledger ev.id then (st, [])
  else
    let ledger1 := setLedgerMerge st.ledger ev.id
      (fun r => { r with lockedAt := some now, type := some (eventTypeName ev.data) })
    let usersFx := handleStripeEvent fetchSub now ev.data st.users
    let ledger2 := setLedgerMerge ledger1 ev.id
      (fun r => { r with processedAt := some now })
    (⟨usersFx.1, ledger2⟩, usersFx.2)

/-- An HTTP response as sent by the webhook endpoint. -/
structure HttpResp where
  status : Nat
  body : String
deriving Repr, DecidableEq

/-- An inbound webhook request: the optional `stripe-signature` header
(an empty header arrives as "") and the raw byte body. -/
structure WebhookReq where
  sigHeader : Option String := none
  rawBody : String := ""
deriving Repr, DecidableEq

/-- Outcome of one webhook request: response, final store state and
emitted side effects. -/
structure HandlerResult where
  resp : HttpResp
  store : Store
  effects : List SideEffect
deriving Repr, DecidableEq

/-- `app.post("/webhook")` (src/index.js lines 332-374).  `verify` stands
for `stripe.webhooks.constructEvent` over the raw body and the signature
header; it returns the parsed event, or `none` when the signature check
throws.  `if (!sig)` rejects an absent or empty header with 403 before
any verification; a failed verification yields 400; otherwise the 200
acknowledgement is sent and the ledger-gated processing runs. -/
def webhookHandler (verify : String → String → Option Event)
    (fetchSub : String → Option SubObj) (now : Nat)
    (req : WebhookReq) (st : Store) : HandlerResult :=
  match req.sigHeader with
  | none => ⟨⟨403, "forbidden"⟩, st, []⟩
  | some sig =>
    if sig == "" then ⟨⟨403, "forbidden"⟩, st, []⟩
    else
      match verify req.rawBody sig with
      | none => ⟨⟨400, "bad signature"⟩, st, []⟩
      | some ev =>
        let p := processVerified fetchSub now ev st
        ⟨⟨200, "ok"⟩, p.1, p.2⟩

/-- The JSON body of `GET /api/user/:id`; `none` on an optional field
means the field is absent from the response body. -/
structure ApiUserBody where
  existsFlag : Bool
  premium : Option Bool := none
  premiumSince : Option (Option Nat) := none
  premiumUntil : Option (Option Nat) := none
  cancelPending : Option Bool := none
  cancelAt : Option (Option Nat) := none
deriving Repr, DecidableEq

/-- `app.get("/api/user/:id")` (src/index.js lines 644-664): a missing
document yields status 404 with only the `exists` flag in the body; an
existing document yields status 200 with the projected record. -/
def apiGetUser (now : Nat) (st : Store) (uid : String) : Nat × ApiUserBody :=
  match alGet st.users uid with
  | none => (404, { existsFlag := false })
  | some data =>
    (200,
     { existsFlag := true
       premium := some (isPremiumFromData (some data) now)
       premiumSince := some data.premiumSince
       premiumUntil := some data.premiumUntil
       cancelPending := some (data.cancelPending == some true)
       cancelAt := some data.cancelAt })

/-! ## Helper lemmas -/

theorem alGet_alSet_self {α : Type} (l : List (String × α)) (k : String) (v : α) :
    alGet (alSet l k v) k = some v := by
  induction l with
  | nil => simp [alGet, alSet]
  | cons p rest ih =>
    by_cases h : p.1 = k
    · simp [alGet, alSet, h]
    · simp [alGet, alSet, h, ih]

theorem alGet_alSet_ne {α : Type} (l : List (String × α)) (k j : String) (v : α)
    (h : j ≠ k) : alGet (alSet l k v) j = alGet l j := by
  induction l with
  | nil => simp [alGet, alSet, Ne.symm h]
  | cons p rest ih =>
    simp only [alSet]
    by_cases hp : p.1 = k
    · simp [alGet, hp, Ne.symm h]
    · simp [alGet, hp, ih]

/-! ## Claim theorems -/

/-- Shared concrete sample: a subscription fetch that always fails. -/
def fetch0 : String → Option SubObj := fun _ => none

/-- C3: `isPremiumFromData` is a pure function of the record and the
current time (its type admits no store access): false when the record is
absent or the premium flag is false; true when premium is set and
`premiumUntil` is absent; otherwise true exactly when the current time
is strictly before `premiumUntil`. -/
theorem isPremiumFromData_projection (now : Nat) (d : UserRecord) (u : Nat) :
    isPremiumFromData none now = false ∧
    (d.premium = false → isPremiumFromData (some d) now = false) ∧
    (d.premium = true → d.premiumUntil = none → isPremiumFromData (some d) now = true) ∧
    (d.premium = true → d.premiumUntil = some u →
      (isPremiumFromData (some d) now = true ↔ now < u)) := by
  refine ⟨rfl, ?_, ?_, ?_⟩
  · intro hp; simp [isPremiumFromData, hp]
  · intro hp hu; simp [isPremiumFromData, hp, hu]
  · intro hp hu; simp [isPremiumFromData, hp, hu]

/-- Witness for C3: a premium record expiring at 5, read at time 3, is
still entitled. -/
theorem isPremiumFromData_projection_witness :
    isPremiumFromData (some { premium := true, premiumUntil := some 5 }) 3 = true :=
  ((isPremiumFromData_projection 3 { premium := true, premiumUntil := some 5 } 5).2.2.2
    rfl rfl).mpr (by decide)

/-- C5: the `customer.subscription.updated` patch writes only
`cancelPending`, `cancelAt` and (when a new period end is present)
`premiumUntil`; `premium`, `premiumSince`, `stripeCustomerId` and
`lastSubscriptionId` are left exactly as stored. -/
theorem subscriptionUpdatedPatch_frame (sub : SubObj) (r : UserRecord) :
    (subscriptionUpdatedPatch sub r).premium = r.premium ∧
    (subscriptionUpdatedPatch sub r).premiumSince = r.premiumSince ∧
    (subscriptionUpdatedPatch sub r).stripeCustomerId = r.stripeCustomerId ∧
    (subscriptionUpdatedPatch sub r).lastSubscriptionId = r.lastSubscriptionId ∧
    (natTruthy sub.current_period_end = false →
      (subscriptionUpdatedPatch sub r).premiumUntil = r.premiumUntil) ∧
    (subscriptionUpdatedPatch sub r).cancelPending =
      (if sub.cancel_at_period_end || natTruthy sub.cancel_at then some true else none) ∧
    (subscriptionUpdatedPatch sub r).cancelAt =
      tsFromSec (jsOrNat sub.cancel_at (jsOrNat sub.current_period_end none)) ∧
    (natTruthy sub.current_period_end = true →
      (subscriptionUpdatedPatch sub r).premiumUntil = tsFromSec sub.current_period_end) := by
  refine ⟨rfl, rfl, rfl, rfl, ?_, rfl, rfl, ?_⟩
  · intro h; simp [subscriptionUpdatedPatch, h]
  · intro h; simp [subscriptionUpdatedPatch, h]

/-- Witness for C5: a plain subscription-updated patch (no period end)
leaves the premiumUntil of a concrete premium record untouched. -/
theorem subscriptionUpdatedPatch_frame_witness :
    (subscriptionUpdatedPatch {} { premium := true, premiumUntil := some 7 }).premiumUntil
      = some 7 :=
  (subscriptionUpdatedPatch_frame {} { premium := true, premiumUntil := some 7 }).2.2.2.2.1
    (by decide)

/-- C7: invoice identity resolution tries the strategies in fixed
priority order with early return: the invoice's own metadata tag first;
then the referenced subscription's metadata tag, the subscription being
fetched from the payments API when only a string reference is present;
then the reverse lookup by the invoice's customer reference. -/
theorem resolveUserIdFromInvoice_priority (users : List (String × UserRecord))
    (fetchSub : String → Option SubObj) (inv : Invoice) :
    (strTruthy inv.metadataUserId = true →
      resolveUserIdFromInvoice users fetchSub (some inv) = inv.metadataUserId) ∧
    (∀ i, inv.subscription = SubField.ref i →
      fetchedSub fetchSub inv.subscription = fetchSub i) ∧
    (∀ s, strTruthy inv.metadataUserId = false →
      fetchedSub fetchSub inv.subscription = some s →
      strTruthy s.metadataUserId = true →
      resolveUserIdFromInvoice users fetchSub (some inv) = s.metadataUserId) ∧
    (strTruthy inv.metadataUserId = false →
      (∀ s, fetchedSub fetchSub inv.subscription = some s →
        strTruthy s.metadataUserId = false) →
      resolveUserIdFromInvoice users fetchSub (some inv) =
        resolveUserIdFromCustomerId users (customerIdOf inv.customer)) := by
  refine ⟨?_, ?_, ?_, ?_⟩
  · intro h; simp [resolveUserIdFromInvoice, h]
  · intro i hi; rw [hi]; rfl
  · intro s h hs hms; simp [resolveUserIdFromInvoice, h, hs, hms]
  · intro h hall
    cases hfs : fetchedSub fetchSub inv.subscription with
    | none => simp [resolveUserIdFromInvoice, h, hfs]
    | some s => simp [resolveUserIdFromInvoice, h, hfs, hall s hfs]

/-- Witness for C7: an invoice carrying its own metadata tag resolves to
that tag without consulting the store or the payments API. -/
theorem resolveUserIdFromInvoice_priority_witness :
    resolveUserIdFromInvoice [] fetch0 (some { metadataUserId := some "u7" }) = some "u7" :=
  (resolveUserIdFromInvoice_priority [] fetch0 { metadataUserId := some "u7" }).1 (by decide)

/-- Concrete record for the checkout counterexamples: premium already
activated at time 5, customer already linked to "cA". -/
def rec4 : UserRecord := { premiumSince := some 5, stripeCustomerId := some "cA" }

/-- Concrete checkout session for the counterexamples: tagged user "u1",
customer reference "cB". -/
def session4 : Session := { metadataUserId := some "u1", customer := .str "cB" }

/-- C4 counterexample: applying `checkout.session.completed` at time 9
to a record whose `premiumSince` is already 5 and whose
`stripeCustomerId` is already "cA" rewrites `premiumSince` to 9 and
`stripeCustomerId` to the session's "cB" — neither field is set-once. -/
theorem checkout_overwrites_counterexample :
    ((alGet (handleStripeEvent fetch0 9 (.checkoutCompleted session4) [("u1", rec4)]).1
        "u1").map UserRecord.premiumSince = some (some 9)) ∧
    ((alGet (handleStripeEvent fetch0 9 (.checkoutCompleted session4) [("u1", rec4)]).1
        "u1").map UserRecord.stripeCustomerId = some (some "cB")) := by
  decide

/-- C4 as amended: the `checkout.session.completed` patch always stamps
`premiumSince` with the current server timestamp, even when it is
already set, and overwrites `stripeCustomerId` with the session's
customer id whenever the session carries a truthy one (preserving the
stored value only when it does not). -/
theorem checkoutCompletedPatch_overwrites (fetchSub : String → Option SubObj)
    (now : Nat) (session : Session) (r : UserRecord) :
    (checkoutCompletedPatch fetchSub now session r).premiumSince = some now ∧
    (checkoutCompletedPatch fetchSub now session r).stripeCustomerId =
      (if strTruthy (checkoutCustomerId session) then checkoutCustomerId session
       else r.stripeCustomerId) :=
  ⟨rfl, rfl⟩

/-- Two users sharing one `stripeCustomerId`, for the C6 counterexample. -/
def users6 : List (String × UserRecord) :=
  [("u1", { stripeCustomerId := some "c" }), ("u2", { stripeCustomerId := some "c" })]

/-- C6 counterexample: with two stored records carrying the same
`stripeCustomerId`, the reverse lookup silently returns the first
matching document's id instead of failing with an ambiguity error. -/
theorem reverse_lookup_ambiguity_counterexample :
    (users6.filter (fun p => p.2.stripeCustomerId == some "c")).length = 2 ∧
    resolveUserIdFromCustomerId users6 (some "c") = some "u1" := by
  decide

/-- C6 as amended: with zero matching records the reverse lookup reports
not-found; with one or more matching records it returns the first
matching record's id — it never fails on ambiguity. -/
theorem resolveUserIdFromCustomerId_first_match (users : List (String × UserRecord))
    (cid : String) (h : cid ≠ "") :
    (users.find? (fun p => p.2.stripeCustomerId == some cid) = none →
      resolveUserIdFromCustomerId users (some cid) = none) ∧
    (∀ p, users.find? (fun p => p.2.stripeCustomerId == some cid) = some p →
      resolveUserIdFromCustomerId users (some cid) = some p.1) := by
  constructor
  · intro hf; simp [resolveUserIdFromCustomerId, strTruthy, h, hf]
  · intro p hf; simp [resolveUserIdFromCustomerId, strTruthy, h, hf]

/-- Witness for the amended C6: an empty store resolves no customer id. -/
theorem resolveUserIdFromCustomerId_first_match_witness :
    resolveUserIdFromCustomerId [] (some "c") = none :=
  (resolveUserIdFromCustomerId_first_match [] "c" (by decide)).1 rfl

/-- C8 counterexample: for a user with no stored record the read
endpoint answers HTTP 404 with a body carrying only the exists flag —
the `premium` field is absent rather than defaulted to false, and the
status is not a success. -/
theorem apiGetUser_missing_counterexample :
    apiGetUser 0 {} "u1" = (404, { existsFlag := false }) ∧
    (apiGetUser 0 {} "u1").1 ≠ 200 ∧
    (apiGetUser 0 {} "u1").2.premium = none := by
  decide

/-- C8 as amended: a never-seen user receives status 404 with only
`exists=false` in the body, while an existing user receives status 200
with the full projected shape. -/
theorem apiGetUser_shape (now : Nat) (st : Store) (uid : String) :
    (alGet st.users uid = none →
      apiGetUser now st uid = (404, { existsFlag := false })) ∧
    (∀ d, alGet st.users uid = some d →
      apiGetUser now st uid =
        (200,
         { existsFlag := true
           premium := some (isPremiumFromData (some d) now)
           premiumSince := some d.premiumSince
           premiumUntil := some d.premiumUntil
           cancelPending := some (d.cancelPending == some true)
           cancelAt := some d.cancelAt })) := by
  constructor
  · intro h; simp [apiGetUser, h]
  · intro d h; simp [apiGetUser, h]

/-- Witness for the amended C8: the empty store yields the 404 shape. -/
theorem apiGetUser_shape_witness :
    apiGetUser 0 {} "u1" = (404, { existsFlag := false }) :=
  (apiGetUser_shape 0 {} "u1").1 rfl

/-- Checkout session for the C9 counterexample. -/
def session9 : Session := { metadataUserId := some "u1" }

/-- C9 counterexample: the `checkout.session.completed` transition is
not idempotent across successive applications — reapplying it at server
time 2 after an application at time 1 moves `premiumSince` and so
changes the record. -/
theorem eventPatch_reapply_counterexample :
    eventPatch fetch0 2 (.checkoutCompleted session9)
        (eventPatch fetch0 1 (.checkoutCompleted session9) {}) ≠
      eventPatch fetch0 1 (.checkoutCompleted session9) {} := by
  decide

/-- C9 as amended: every transition patch is idempotent at a fixed
server timestamp — applying the same event's patch twice with the same
`now` yields the record of a single application.  (Only the
checkout-completed patch is time-sensitive, through `premiumSince`.) -/
theorem eventPatch_idempotent (fetchSub : String → Option SubObj) (now : Nat)
    (ev : EventData) (r : UserRecord) :
    eventPatch fetchSub now ev (eventPatch fetchSub now ev r) =
      eventPatch fetchSub now ev r := by
  cases ev with
  | subscriptionUpdated sub =>
    simp only [eventPatch, subscriptionUpdatedPatch]
    cases h : natTruthy sub.current_period_end <;> simp [h]
  | checkoutCompleted session =>
    simp only [eventPatch, checkoutCompletedPatch]
    cases h1 : (checkoutPremiumUntil fetchSub session).isSome <;>
      cases h2 : strTruthy (checkoutCustomerId session) <;>
        cases h3 : strTruthy (checkoutSubscriptionId session) <;>
          simp [h1, h2, h3]
  | invoicePaymentSucceeded inv => rfl
  | subscriptionDeleted sub => rfl
  | other t => rfl

/-- A duplicate delivery short-circuits: when the ledger already holds a
lock or a processed mark for the event id, the post-verification body
returns the store untouched and emits nothing. -/
theorem processVerified_dup (fetchSub : String → Option SubObj) (now : Nat)
    (ev : Event) (st : Store) (hd : ledgerSeenLocked st.ledger ev.id = true) :
    processVerified fetchSub now ev st = (st, []) := by
  simp [processVerified, hd]

/-- A first (non-duplicate) delivery leaves the ledger locked and marked
processed for the event id. -/
theorem processVerified_marks (fetchSub : String → Option SubObj) (now : Nat)
    (ev : Event) (st : Store) (hd : ledgerSeenLocked st.ledger ev.id = false) :
    ledgerSeenLocked (processVerified fetchSub now ev st).1.ledger ev.id = true := by
  unfold processVerified
  rw [hd]
  simp [ledgerSeenLocked, setLedgerMerge, alGet_alSet_self]

/-- C1: the ledger gate makes duplicate deliveries of a verified event
no-ops.  Once the ledger record of an event id has `lockedAt` or
`processedAt` set, a later delivery of the same verified payload leaves
the whole store untouched, dispatches nothing, and still answers 200;
consequently submitting the same verified payload twice in sequence
applies the entitlement transition exactly once — the second call
returns success with the store exactly as the first call left it. -/
theorem webhook_event_processed_once
    (verify : String → String → Option Event) (fetchSub : String → Option SubObj)
    (now1 now2 : Nat) (req : WebhookReq) (st : Store) (ev : Event) (sig : String)
    (hsig : req.sigHeader = some sig) (hs : sig ≠ "")
    (hv : verify req.rawBody sig = some ev) :
    (ledgerSeenLocked st.ledger ev.id = true →
      webhookHandler verify fetchSub now2 req st = ⟨⟨200, "ok"⟩, st, []⟩) ∧
    webhookHandler verify fetchSub now2 req
        (webhookHandler verify fetchSub now1 req st).store =
      ⟨⟨200, "ok"⟩, (webhookHandler verify fetchSub now1 req st).store, []⟩ := by
  have hsb : (sig == "") = false := by simp [hs]
  have hwFull : ∀ (n : Nat) (s : Store),
      webhookHandler verify fetchSub n req s =
        ⟨⟨200, "ok"⟩, (processVerified fetchSub n ev s).1,
          (processVerified fetchSub n ev s).2⟩ := by
    intro n s
    simp [webhookHandler, hsig, hsb, hv]
  have hwStore : ∀ (n : Nat) (s : Store),
      (webhookHandler verify fetchSub n req s).store =
        (processVerified fetchSub n ev s).1 := by
    intro n s; rw [hwFull]
  constructor
  · intro hd
    rw [hwFull now2 st, processVerified_dup fetchSub now2 ev st hd]
  · by_cases hd : ledgerSeenLocked st.ledger ev.id = true
    · have h1 := processVerified_dup fetchSub now1 ev st hd
      rw [hwStore now1 st, h1]
      rw [hwFull now2 st, processVerified_dup fetchSub now2 ev st hd]
    · have hd0 : ledgerSeenLocked st.ledger ev.id = false := by
        simpa using hd
      have hmark := processVerified_marks fetchSub now1 ev st hd0
      rw [hwStore now1 st]
      rw [hwFull now2 ((processVerified fetchSub now1 ev st).1),
        processVerified_dup fetchSub now2 ev ((processVerified fetchSub now1 ev st).1) hmark]

/-- Verifier sample for C1: every request verifies to one fixed event. -/
def verify1 : String → String → Option Event :=
  fun _ _ => some { id := "evt_1", data := .other "charge.refunded" }

/-- Request sample for the webhook theorems. -/
def req1 : WebhookReq := { sigHeader := some "t1v1abc", rawBody := "payload" }

/-- Witness for C1: a concrete second delivery of an already-processed
event id answers 200 and changes nothing. -/
theorem webhook_event_processed_once_witness :
    webhookHandler verify1 fetch0 1 req1 (webhookHandler verify1 fetch0 0 req1 {}).store =
      ⟨⟨200, "ok"⟩, (webhookHandler verify1 fetch0 0 req1 {}).store, []⟩ :=
  (webhook_event_processed_once verify1 fetch0 0 1 req1 {}
    { id := "evt_1", data := .other "charge.refunded" } "t1v1abc" rfl (by decide) rfl).2

/-- Verifier sample that rejects every signature. -/
def verify0 : String → String → Option Event := fun _ _ => none

/-- C2 counterexample: a request whose signature header is present but
empty — a header value on which any signature check would fail — is
rejected with 403, not with the 400 the claim requires for a present
header with an invalid signature (`if (!sig)` treats "" like an absent
header). -/
theorem webhook_empty_sig_counterexample :
    (webhookHandler verify0 fetch0 0 { sigHeader := some "", rawBody := "x" } {}).resp =
      ⟨403, "forbidden"⟩ ∧
    (webhookHandler verify0 fetch0 0 { sigHeader := some "", rawBody := "x" } {}).resp.status ≠
      400 := by
  decide

/-- C2 as amended: an absent or empty signature header is rejected with
403 — for every verifier, hence before any signature computation — with
the store untouched; a present non-empty header whose signature fails
verification against the raw body is rejected with 400 with the store
untouched; only a successfully verified request proceeds to the ledger
gate and dispatch. -/
theorem webhook_signature_checks (verify : String → String → Option Event)
    (fetchSub : String → Option SubObj) (now : Nat) (req : WebhookReq) (st : Store) :
    (req.sigHeader = none →
      webhookHandler verify fetchSub now req st = ⟨⟨403, "forbidden"⟩, st, []⟩) ∧
    (req.sigHeader = some "" →
      webhookHandler verify fetchSub now req st = ⟨⟨403, "forbidden"⟩, st, []⟩) ∧
    (∀ sig, req.sigHeader = some sig → sig ≠ "" → verify req.rawBody sig = none →
      webhookHandler verify fetchSub now req st = ⟨⟨400, "bad signature"⟩, st, []⟩) ∧
    (∀ sig ev, req.sigHeader = some sig → sig ≠ "" → verify req.rawBody sig = some ev →
      webhookHandler verify fetchSub now req st =
        ⟨⟨200, "ok"⟩, (processVerified fetchSub now ev st).1,
          (processVerified fetchSub now ev st).2⟩) := by
  refine ⟨?_, ?_, ?_, ?_⟩
  · intro h; simp [webhookHandler, h]
  · intro h; simp [webhookHandler, h]
  · intro sig h hs hv
    have hsb : (sig == "") = false := by simp [hs]
    simp [webhookHandler, h, hsb, hv]
  · intro sig ev h hs hv
    have hsb : (sig == "") = false := by simp [hs]
    simp [webhookHandler, h, hsb, hv]

/-- Witness for the amended C2: a request with no signature header at
all is turned away with 403 and an untouched store. -/
theorem webhook_signature_checks_witness :
    webhookHandler verify0 fetch0 0 {} {} = ⟨⟨403, "forbidden"⟩, {}, []⟩ :=
  (webhook_signature_checks verify0 fetch0 0 {} {}).1 rfl

/-- C10: when an `invoice.payment_succeeded` event resolves to no user
or carries no derivable period end, the handler applies no entitlement
patch (the users collection is returned unchanged) and fires no
rich-menu side effect, yet a non-duplicate delivery of the event still
ends with the ledger marked processed. -/
theorem invoice_unresolved_noop (fetchSub : String → Option SubObj) (now : Nat)
    (inv : Invoice) (users : List (String × UserRecord)) (st : Store) (eid : String)
    (h : strTruthy (resolveUserIdFromInvoice users fetchSub (some inv)) = false ∨
         natTruthy (invoicePeriodEnd inv) = false) :
    handleStripeEvent fetchSub now (.invoicePaymentSucceeded inv) users = (users, []) ∧
    (st.users = users → ledgerSeenLocked st.ledger eid = false →
      (processVerified fetchSub now ⟨eid, .invoicePaymentSucceeded inv⟩ st).1.users = users ∧
      (processVerified fetchSub now ⟨eid, .invoicePaymentSucceeded inv⟩ st).2 = [] ∧
      (alGet (processVerified fetchSub now ⟨eid, .invoicePaymentSucceeded inv⟩ st).1.ledger
          eid).map LedgerRec.processedAt = some (some now)) := by
  have hcond : (strTruthy (resolveUserIdFromInvoice users fetchSub (some inv)) &&
      natTruthy (invoicePeriodEnd inv)) = false := by
    cases h with
    | inl h => simp [h]
    | inr h => simp [h]
  have hne : handleStripeEvent fetchSub now (.invoicePaymentSucceeded inv) users =
      (users, []) := by
    simp [handleStripeEvent, hcond]
  refine ⟨hne, ?_⟩
  intro hu hd
  refine ⟨?_, ?_, ?_⟩ <;>
    simp [processVerified, hd, hu, hne, setLedgerMerge, alGet_alSet_self]

/-- Witness for C10: a bare invoice event over an empty store mutates
nothing and fires no side effect. -/
theorem invoice_unresolved_noop_witness :
    handleStripeEvent fetch0 5 (.invoicePaymentSucceeded {}) [] = ([], []) :=
  (invoice_unresolved_noop fetch0 5 {} [] {} "evt_x" (Or.inl (by decide))).1

end Oshaberi
